import Mathlib

/-!
Shallow embedding of the lingua marshalling layer (Rust side).

Source files embedded:
* `rust/src/lib.rs` — the handle registry / transfer slot table (`ApiState`),
  the boundary fault guard (`ffi_panic_boundary`), the FFI entry points
  `lingua_send_json_to_rust_alloc` and `lingua_send_json_to_rust`, and the
  façade functions `send_to_luau` / `receive_from_luau`.
* `src/ffi.rs` — the foreign string buffer registry (`StringAllocs`) and the
  unguarded FFI entry points `lingua_alloc_foreign_string` and
  `lingua_dealloc_foreign_string`.

Modelling conventions:
* Rust `u32` values (handles, the send counter) are `Nat`; wrapping
  arithmetic is explicit `% 2 ^ 32`.
* `std::collections::HashMap` is an association list with at most one entry
  per key; `tableGet` / `tableInsert` / `tableRemove` / `hashMapRemove`
  mirror `get` / `insert` / `remove` / `HashMap::remove` (remove-and-return).
* A Rust panic is an `Except.error` carrying the panic message together with
  the registry state at the moment of the panic (mutations made before the
  panic persist, exactly as with `catch_unwind`).  `ffi_panic_boundary`
  converts such an error into the `PanicAtFfiBoundary` status code.
* An internal fault injected inside an entry point (the spec's fault
  injection) is an explicit `inject : Option String` argument: `some msg`
  means the body panics with `msg` before reaching its first operation.
* External collaborators are parameters: the serializer/deserializer
  (`serde_json`) is a function argument, and so is the host-side
  `lingua_send_json_to_luau` import.  Allocator-chosen addresses are oracle
  arguments.
* Raw pointers returned by `lingua_send_json_to_rust_alloc` are modelled as
  `Option Bytes`: `none` is the null pointer, `some buf` a non-null pointer
  to the freshly reserved buffer (a Rust `String`'s `as_mut_ptr` is never
  null).
-/

set_option autoImplicit false

namespace Lingua

/-- Payload bytes (the raw contents of a Rust `String`/buffer). -/
abbrev Bytes := List Nat

/-- `HashMap::get` on the association-list model of `std::collections::HashMap`. -/
def tableGet {α : Type} : List (Nat × α) → Nat → Option α
  | [], _ => none
  | p :: rest, k => if p.1 = k then some p.2 else tableGet rest k

/-- Removal of every entry with the given key (helper for `insert`/`remove`). -/
def tableRemove {α : Type} : List (Nat × α) → Nat → List (Nat × α)
  | [], _ => []
  | p :: rest, k => if p.1 = k then tableRemove rest k else p :: tableRemove rest k

/-- `HashMap::insert`: replaces any existing entry for the key. -/
def tableInsert {α : Type} (t : List (Nat × α)) (k : Nat) (v : α) : List (Nat × α) :=
  (k, v) :: tableRemove t k

/-- `HashMap::remove`: removes the entry for the key, if any, and returns it
together with the updated table. -/
def hashMapRemove {α : Type} (t : List (Nat × α)) (k : Nat) :
    Option α × List (Nat × α) :=
  match tableGet t k with
  | none => (none, t)
  | some v => (some v, tableRemove t k)

namespace return_codes

/-- `return_codes::Luau` from `rust/src/lib.rs`. -/
inductive Luau where
  | Success
  | UncaughtErrorAtFfiBoundary
  | LuauApiNotReady
  deriving DecidableEq

/-- `return_codes::Luau::interpret` from `rust/src/lib.rs`. -/
def Luau.interpret (value : Nat) : Option Luau :=
  match value with
  | 0 => some Luau.Success
  | 1 => some Luau.UncaughtErrorAtFfiBoundary
  | 2 => some Luau.LuauApiNotReady
  | _ => none

/-- `return_codes::Rust` from `rust/src/lib.rs`. -/
inductive Rust where
  | Success
  | PanicAtFfiBoundary
  deriving DecidableEq

end return_codes

/-- `JustReceivedJson` from `rust/src/lib.rs`: the state of one transfer slot. -/
inductive JustReceivedJson where
  | AllocatedOnly (s : Bytes)
  | Ready (s : Bytes)
  deriving DecidableEq

/-- `ApiState` from `rust/src/lib.rs`: the per-context registry singleton. -/
structure ApiState where
  just_received_json : List (Nat × JustReceivedJson)
  next_rust_handle : Nat
  deriving DecidableEq

/-- `ApiState::new`. -/
def ApiState.new : ApiState where
  just_received_json := []
  next_rust_handle := 0

/-- `ffi_panic_boundary` from `rust/src/lib.rs`: `catch_unwind` around the
given body.  A normal completion yields `Success`; a panic is intercepted
and yields `PanicAtFfiBoundary`.  Either way the state produced by the body
(including mutations made before a panic) is kept. -/
def ffi_panic_boundary {σ : Type} (body : Except (String × σ) σ) :
    return_codes.Rust × σ :=
  match body with
  | Except.ok s => (return_codes.Rust.Success, s)
  | Except.error (_, s) => (return_codes.Rust.PanicAtFfiBoundary, s)

/-- The UTF-8 encoding of the sentinel character `'£'` used by
`lingua_send_json_to_rust_alloc` (two bytes: `0xC2 0xA3`). -/
def sentinelChar : Bytes := [0xC2, 0xA3]

/-- `String::from_iter((0..len).map(|_| '£'))`: the byte contents of the
freshly reserved buffer — `len` copies of the two-byte sentinel character. -/
def sentinelFill (len : Nat) : Bytes :=
  (List.replicate len sentinelChar).flatten

/-- Body of the guarded closure of `lingua_send_json_to_rust_alloc`
(`rust/src/lib.rs`).  The buffer's capacity is modelled by its byte length
(a Rust `String`'s capacity is at least its length, so the sanity-check
assert is modelled on the length).  The two `assert!`s are panics
(`Except.error`); both fire before the table is mutated. -/
def lingua_send_json_to_rust_alloc_body (luau_handle len : Nat) (st : ApiState) :
    Except (String × ApiState) (Bytes × ApiState) :=
  let str := sentinelFill len
  if str.length < len then
    Except.error ("sanity check failed: wrong capacity", st)
  else if (tableGet st.just_received_json luau_handle).isSome then
    Except.error ("luau handle is already in use", st)
  else
    let t1 := tableInsert st.just_received_json luau_handle (JustReceivedJson.AllocatedOnly str)
    Except.ok (str, { st with just_received_json := t1 })

/-- `lingua_send_json_to_rust_alloc` from `rust/src/lib.rs`.  `return_ptr`
starts null and is assigned the buffer pointer only when the guarded closure
completes, so a caught panic leaves the null pointer as the return value
(the `ffi_panic_boundary` status itself is discarded by the source). -/
def lingua_send_json_to_rust_alloc (inject : Option String)
    (luau_handle len : Nat) (st : ApiState) : Option Bytes × ApiState :=
  match (match inject with
         | some m => Except.error (m, st)
         | none => lingua_send_json_to_rust_alloc_body luau_handle len st) with
  | Except.ok (buf, st1) => (some buf, st1)
  | Except.error (_, st1) => (none, st1)

/-- Body of the guarded closure of `lingua_send_json_to_rust`
(`rust/src/lib.rs`).  `HashMap::remove` happens first; an absent handle
panics ("no data"), an already-`Ready` handle panics ("already sent") with
the entry already removed, and an `AllocatedOnly` entry is re-inserted as
`Ready`. -/
def lingua_send_json_to_rust_body (luau_handle : Nat) (st : ApiState) :
    Except (String × ApiState) ApiState :=
  match hashMapRemove st.just_received_json luau_handle with
  | (none, _) => Except.error ("luau handle has no data", st)
  | (some d, t1) =>
    match d with
    | JustReceivedJson.AllocatedOnly s =>
      let t2 := tableInsert t1 luau_handle (JustReceivedJson.Ready s)
      Except.ok { st with just_received_json := t2 }
    | JustReceivedJson.Ready _ =>
      Except.error ("luau handle was already sent", { st with just_received_json := t1 })

/-- `lingua_send_json_to_rust` from `rust/src/lib.rs`: the commit entry
point, wrapped in `ffi_panic_boundary`. -/
def lingua_send_json_to_rust (inject : Option String) (luau_handle : Nat)
    (st : ApiState) : return_codes.Rust × ApiState :=
  ffi_panic_boundary
    (match inject with
     | some m => Except.error (m, st)
     | none => lingua_send_json_to_rust_body luau_handle st)

/-- `SendToLuauError` from `rust/src/lib.rs` (serde errors carry a message). -/
inductive SendToLuauError where
  | SerdeError (e : String)
  | CStringError
  | LuauErrorAtFfiBoundaryError
  | LuauApiNotReadyError
  | LuauUnknownError
  deriving DecidableEq

/-- `ReceiveFromLuauError` from `rust/src/lib.rs`. -/
inductive ReceiveFromLuauError where
  | SerdeError (e : String)
  | NoDataError
  | AllocatedOnlyError
  deriving DecidableEq

/-- `send_to_luau` from `rust/src/lib.rs`.  `to_string` is the external
serializer (`serde_json::to_string`) and `luau_import` the host-side
`lingua_send_json_to_luau` import, receiving the handle and the payload
bytes and answering a raw status byte.  The counter increment is the
`Wrapping<u32>` increment, hence `% 2 ^ 32`. -/
def send_to_luau {S : Type} (to_string : S → Except String Bytes)
    (luau_import : Nat → Bytes → Nat) (data : S) (st : ApiState) :
    Except SendToLuauError Nat × ApiState :=
  match to_string data with
  | Except.error e => (Except.error (SendToLuauError.SerdeError e), st)
  | Except.ok str =>
    let rust_handle := st.next_rust_handle
    let st1 := { st with next_rust_handle := (st.next_rust_handle + 1) % 2 ^ 32 }
    match return_codes.Luau.interpret (luau_import rust_handle str) with
    | some return_codes.Luau.Success => (Except.ok rust_handle, st1)
    | some return_codes.Luau.UncaughtErrorAtFfiBoundary =>
      (Except.error SendToLuauError.LuauErrorAtFfiBoundaryError, st1)
    | some return_codes.Luau.LuauApiNotReady =>
      (Except.error SendToLuauError.LuauApiNotReadyError, st1)
    | none => (Except.error SendToLuauError.LuauUnknownError, st1)

/-- `receive_from_luau` from `rust/src/lib.rs`.  `from_str` is the external
deserializer (`serde_json::from_str`).  `HashMap::remove` happens first, in
every branch, so even the `AllocatedOnly` error path removes the entry. -/
def receive_from_luau {D : Type} (from_str : Bytes → Except String D)
    (luau_handle : Nat) (st : ApiState) :
    Except ReceiveFromLuauError D × ApiState :=
  match hashMapRemove st.just_received_json luau_handle with
  | (none, t1) =>
    (Except.error ReceiveFromLuauError.NoDataError,
     { st with just_received_json := t1 })
  | (some (JustReceivedJson.AllocatedOnly _), t1) =>
    (Except.error ReceiveFromLuauError.AllocatedOnlyError,
     { st with just_received_json := t1 })
  | (some (JustReceivedJson.Ready s), t1) =>
    match from_str s with
    | Except.ok v => (Except.ok v, { st with just_received_json := t1 })
    | Except.error e =>
      (Except.error (ReceiveFromLuauError.SerdeError e),
       { st with just_received_json := t1 })

/-- `StringAllocs` from `src/ffi.rs`: the foreign buffer registry, keyed by
address.  The stored `ManuallyDrop<String>` is modelled by its capacity. -/
structure StringAllocs where
  ptr_map : List (Nat × Nat)
  deriving DecidableEq

/-- `StringAllocs::new`. -/
def StringAllocs.new : StringAllocs where
  ptr_map := []

/-- `StringAllocs::alloc` from `src/ffi.rs`.  The address the allocator
assigns to the fresh string is an oracle argument `addr`. -/
def StringAllocs.alloc (st : StringAllocs) (addr capacity : Nat) :
    Nat × StringAllocs :=
  (addr, { ptr_map := tableInsert st.ptr_map addr capacity })

/-- `StringAllocs::dealloc` from `src/ffi.rs`: `remove` the entry; if absent
return `false` without any fault, otherwise drop the string and return
`true`. -/
def StringAllocs.dealloc (st : StringAllocs) (ptr : Nat) : Bool × StringAllocs :=
  match hashMapRemove st.ptr_map ptr with
  | (none, _) => (false, st)
  | (some _, t1) => (true, { ptr_map := t1 })

/-- `dealloc_string` from `src/ffi.rs` (thread-local state passed
explicitly). -/
def dealloc_string (ptr : Nat) (st : StringAllocs) : Bool × StringAllocs :=
  st.dealloc ptr

/-- The observable outcome of a call arriving at the `extern "C"` boundary:
either a returned value, or a panic unwinding past the boundary (which is
undefined behavior across a foreign-function edge). -/
inductive FfiOutcome (α : Type) where
  | returns (a : α)
  | unwinds (msg : String)
  deriving DecidableEq

/-- `alloc_string` from `src/ffi.rs` in the panic monad.  `inject` models an
internal panic raised inside the body (e.g. a re-entrant `RefCell` borrow
in `with_borrow_mut`); `addr` is the allocator oracle. -/
def alloc_string (inject : Option String) (addr capacity : Nat)
    (st : StringAllocs) : Except (String × StringAllocs) (Nat × StringAllocs) :=
  match inject with
  | some m => Except.error (m, st)
  | none => Except.ok (st.alloc addr capacity)

/-- `lingua_alloc_foreign_string` from `src/ffi.rs`.  The source calls
`alloc_string` directly, with no `ffi_panic_boundary` wrapper, so an
internal panic unwinds past the `extern "C"` boundary. -/
def lingua_alloc_foreign_string (inject : Option String) (addr capacity : Nat)
    (st : StringAllocs) : FfiOutcome Nat × StringAllocs :=
  match alloc_string inject addr capacity st with
  | Except.ok (p, st1) => (FfiOutcome.returns p, st1)
  | Except.error (m, st1) => (FfiOutcome.unwinds m, st1)

/-- `lingua_dealloc_foreign_string` from `src/ffi.rs`: also unguarded; the
boolean result is returned as a status byte. -/
def lingua_dealloc_foreign_string (inject : Option String) (ptr : Nat)
    (st : StringAllocs) : FfiOutcome Nat × StringAllocs :=
  match inject with
  | some m => (FfiOutcome.unwinds m, st)
  | none =>
    let r := dealloc_string ptr st
    (FfiOutcome.returns (if r.1 then 1 else 0), r.2)

/-! ### Helper lemmas about the association-list model of `HashMap` -/

theorem tableGet_tableRemove_self {α : Type} (t : List (Nat × α)) (k : Nat) :
    tableGet (tableRemove t k) k = none := by
  induction t with
  | nil => rfl
  | cons p rest ih =>
    by_cases hp : p.1 = k
    · simpa [tableRemove, hp] using ih
    · simpa [tableRemove, tableGet, hp] using ih

theorem tableGet_tableInsert_self {α : Type} (t : List (Nat × α)) (k : Nat) (v : α) :
    tableGet (tableInsert t k v) k = some v := by
  simp [tableInsert, tableGet]

theorem sentinelFill_succ (n : Nat) :
    sentinelFill (n + 1) = 0xC2 :: 0xA3 :: sentinelFill n := rfl

theorem sentinelFill_length (n : Nat) : (sentinelFill n).length = 2 * n := by
  induction n with
  | zero => rfl
  | succ m ih =>
    rw [sentinelFill_succ]
    simp [ih]
    omega

theorem sentinelFill_get (n i : Nat) (hi : i < 2 * n) :
    (sentinelFill n).get? i = some (if i % 2 = 0 then 0xC2 else 0xA3) := by
  induction n generalizing i with
  | zero => omega
  | succ m ih =>
    rw [sentinelFill_succ]
    cases i with
    | zero => simp
    | succ iv =>
      cases iv with
      | zero => simp
      | succ j =>
        have hj : j < 2 * m := by omega
        have hmod : (j + 2) % 2 = j % 2 := Nat.add_mod_right j 2
        simpa [List.get?, hmod] using ih j hj

/-! ### Claim theorems -/

/-- Claim C5: single-use consumption.  If `receive_from_luau` succeeds on a
handle `h` (the slot was `Ready` and deserialization succeeds), the payload
is returned and the entry removed, and an immediately subsequent
`receive_from_luau` on `h` fails with `NoDataError`. -/
theorem take_is_single_use {D : Type} (from_str : Bytes → Except String D)
    (h : Nat) (st : ApiState) (s : Bytes) (v : D)
    (hready : tableGet st.just_received_json h = some (JustReceivedJson.Ready s))
    (hde : from_str s = Except.ok v) :
    receive_from_luau from_str h st
      = (Except.ok v, { st with just_received_json := tableRemove st.just_received_json h })
    ∧ (receive_from_luau from_str h
        { st with just_received_json := tableRemove st.just_received_json h }).1
      = Except.error ReceiveFromLuauError.NoDataError := by
  constructor
  · simp [receive_from_luau, hashMapRemove, hready, hde]
  · simp [receive_from_luau, hashMapRemove, tableGet_tableRemove_self]

/-- Witness for C5 at a concrete registry state. -/
theorem take_is_single_use_witness :
    receive_from_luau (fun _ => Except.ok 42) 7 ⟨[(7, JustReceivedJson.Ready [49])], 0⟩
      = (Except.ok 42, ⟨[], 0⟩)
    ∧ (receive_from_luau (fun _ => Except.ok 42) 7 (⟨[], 0⟩ : ApiState)).1
      = Except.error ReceiveFromLuauError.NoDataError :=
  take_is_single_use (fun _ => Except.ok 42) 7
    ⟨[(7, JustReceivedJson.Ready [49])], 0⟩ [49] 42 rfl rfl

/-- Claim C6: no premature read.  Taking a handle straight after a successful
allocation (no commit) fails with `AllocatedOnlyError`; taking an absent
handle fails with `NoDataError`; and a successful take can only happen on a
`Ready` slot, returning its deserialized payload. -/
theorem take_requires_commit {D : Type} (from_str : Bytes → Except String D)
    (h n : Nat) (st : ApiState) :
    (tableGet st.just_received_json h = none →
      (receive_from_luau from_str h (lingua_send_json_to_rust_alloc none h n st).2).1
        = Except.error ReceiveFromLuauError.AllocatedOnlyError)
    ∧ (tableGet st.just_received_json h = none →
      (receive_from_luau from_str h st).1 = Except.error ReceiveFromLuauError.NoDataError)
    ∧ (∀ v st2, receive_from_luau from_str h st = (Except.ok v, st2) →
      ∃ s, tableGet st.just_received_json h = some (JustReceivedJson.Ready s)
        ∧ from_str s = Except.ok v) := by
  refine ⟨?_, ?_, ?_⟩
  · intro habs
    have hlen : ¬ (sentinelFill n).length < n := by
      rw [sentinelFill_length]; omega
    simp only [lingua_send_json_to_rust_alloc, lingua_send_json_to_rust_alloc_body]
    rw [if_neg hlen]
    simp only [habs, Option.isSome_none, Bool.false_eq_true, if_false]
    simp [receive_from_luau, hashMapRemove, tableGet_tableInsert_self]
  · intro habs
    simp [receive_from_luau, hashMapRemove, habs]
  · intro v st2 hok
    cases hg : tableGet st.just_received_json h with
    | none => simp [receive_from_luau, hashMapRemove, hg] at hok
    | some d =>
      cases d with
      | AllocatedOnly s => simp [receive_from_luau, hashMapRemove, hg] at hok
      | Ready s =>
        cases hf : from_str s with
        | ok v2 =>
          have hv : v2 = v := by
            simp only [receive_from_luau, hashMapRemove, hg, hf,
              Prod.mk.injEq, Except.ok.injEq] at hok
            exact hok.1
          exact ⟨s, rfl, by rw [hf, hv]⟩
        | error e => simp [receive_from_luau, hashMapRemove, hg, hf] at hok

/-- Witness for C6: allocate handle 3 (length 1) in a fresh state, then take
it — `AllocatedOnlyError`; take the absent handle 9 — `NoDataError`. -/
theorem take_requires_commit_witness :
    (receive_from_luau (fun _ => Except.ok 0) 3
      (lingua_send_json_to_rust_alloc none 3 1 ⟨[], 0⟩).2).1
      = Except.error ReceiveFromLuauError.AllocatedOnlyError
    ∧ (receive_from_luau (fun _ => Except.ok 0) 9 (⟨[], 0⟩ : ApiState)).1
      = Except.error ReceiveFromLuauError.NoDataError :=
  ⟨(take_requires_commit (fun _ => Except.ok 0) 3 1 ⟨[], 0⟩).1 rfl,
   (take_requires_commit (fun _ => Except.ok 0) 9 1 ⟨[], 0⟩).2.1 rfl⟩

/-- Claim C7: no double allocation.  A second `lingua_send_json_to_rust_alloc`
for a handle that already has a live entry (Reserved or Ready) hits the
`assert!` — a panic caught by the guard — so the entry point returns the null
pointer and the registry is left exactly as it was: the existing entry is
neither replaced nor modified. -/
theorem double_allocate_fails_fatally (h n : Nat) (st : ApiState)
    (d : JustReceivedJson)
    (hlive : tableGet st.just_received_json h = some d) :
    lingua_send_json_to_rust_alloc none h n st = (none, st) := by
  have hbody : lingua_send_json_to_rust_alloc_body h n st
      = (if (sentinelFill n).length < n then
          Except.error ("sanity check failed: wrong capacity", st)
         else Except.error ("luau handle is already in use", st)) := by
    unfold lingua_send_json_to_rust_alloc_body
    simp [hlive]
  unfold lingua_send_json_to_rust_alloc
  rw [hbody]
  by_cases hl : (sentinelFill n).length < n
  · rw [if_pos hl]
  · rw [if_neg hl]

/-- Witness for C7: handle 5 is `AllocatedOnly`; a second allocation returns
the null pointer and leaves the registry untouched. -/
theorem double_allocate_fails_fatally_witness :
    lingua_send_json_to_rust_alloc none 5 4
      ⟨[(5, JustReceivedJson.AllocatedOnly [194, 163])], 2⟩
      = (none, ⟨[(5, JustReceivedJson.AllocatedOnly [194, 163])], 2⟩) :=
  double_allocate_fails_fatally 5 4
    ⟨[(5, JustReceivedJson.AllocatedOnly [194, 163])], 2⟩
    (JustReceivedJson.AllocatedOnly [194, 163]) rfl

/-- Claim C9: `dealloc_string` on a registered address releases it, removes
the registration and returns `true`; on an unregistered (or already released)
address it returns `false` without any fault, so a second dealloc of the same
address returns `false`. -/
theorem dealloc_reports_double_free (p : Nat) (st : StringAllocs) :
    ((tableGet st.ptr_map p).isSome →
      dealloc_string p st = (true, ⟨tableRemove st.ptr_map p⟩)
      ∧ (dealloc_string p ⟨tableRemove st.ptr_map p⟩).1 = false)
    ∧ (tableGet st.ptr_map p = none → dealloc_string p st = (false, st)) := by
  constructor
  · intro hsome
    cases hg : tableGet st.ptr_map p with
    | none => rw [hg] at hsome; simp at hsome
    | some c =>
      constructor
      · simp [dealloc_string, StringAllocs.dealloc, hashMapRemove, hg]
      · simp [dealloc_string, StringAllocs.dealloc, hashMapRemove,
          tableGet_tableRemove_self]
  · intro hnone
    simp [dealloc_string, StringAllocs.dealloc, hashMapRemove, hnone]

/-- Witness for C9: address 100 is registered — dealloc returns `true` and a
second dealloc returns `false`; address 200 was never registered — dealloc
returns `false` with the registry untouched. -/
theorem dealloc_reports_double_free_witness :
    (dealloc_string 100 ⟨[(100, 5)]⟩ = (true, ⟨[]⟩)
      ∧ (dealloc_string 100 (⟨[]⟩ : StringAllocs)).1 = false)
    ∧ dealloc_string 200 ⟨[(100, 5)]⟩ = (false, ⟨[(100, 5)]⟩) :=
  ⟨(dealloc_reports_double_free 100 ⟨[(100, 5)]⟩).1 rfl,
   (dealloc_reports_double_free 200 ⟨[(100, 5)]⟩).2 rfl⟩

/-- Claim C10 (implicit): `receive_from_luau` on an `AllocatedOnly` slot not
only reports `AllocatedOnlyError` but removes the entry (the `HashMap::remove`
happens before the state is inspected), so a subsequent take reports
`NoDataError` and a subsequent commit faults at the boundary: the error is
not recoverable by fixing the call order for that handle. -/
theorem premature_take_consumes_entry {D : Type}
    (from_str : Bytes → Except String D) (h : Nat) (st : ApiState) (s : Bytes)
    (halloc : tableGet st.just_received_json h = some (JustReceivedJson.AllocatedOnly s)) :
    receive_from_luau from_str h st
      = (Except.error ReceiveFromLuauError.AllocatedOnlyError,
         { st with just_received_json := tableRemove st.just_received_json h })
    ∧ tableGet (tableRemove st.just_received_json h) h = none
    ∧ (receive_from_luau from_str h
        { st with just_received_json := tableRemove st.just_received_json h }).1
      = Except.error ReceiveFromLuauError.NoDataError
    ∧ (lingua_send_json_to_rust none h
        { st with just_received_json := tableRemove st.just_received_json h }).1
      = return_codes.Rust.PanicAtFfiBoundary := by
  refine ⟨?_, tableGet_tableRemove_self _ _, ?_, ?_⟩
  · simp [receive_from_luau, hashMapRemove, halloc]
  · simp [receive_from_luau, hashMapRemove, tableGet_tableRemove_self]
  · simp [lingua_send_json_to_rust, lingua_send_json_to_rust_body,
      ffi_panic_boundary, hashMapRemove, tableGet_tableRemove_self]

/-- Witness for C10 at a concrete one-entry registry. -/
theorem premature_take_consumes_entry_witness :
    receive_from_luau (fun _ => Except.ok 0) 4
      ⟨[(4, JustReceivedJson.AllocatedOnly [194, 163])], 0⟩
      = (Except.error ReceiveFromLuauError.AllocatedOnlyError, ⟨[], 0⟩)
    ∧ tableGet (tableRemove [(4, JustReceivedJson.AllocatedOnly [194, 163])] 4) 4 = none
    ∧ (receive_from_luau (fun _ => Except.ok 0) 4 (⟨[], 0⟩ : ApiState)).1
      = Except.error ReceiveFromLuauError.NoDataError
    ∧ (lingua_send_json_to_rust none 4 (⟨[], 0⟩ : ApiState)).1
      = return_codes.Rust.PanicAtFfiBoundary :=
  premature_take_consumes_entry (fun _ => Except.ok 0) 4
    ⟨[(4, JustReceivedJson.AllocatedOnly [194, 163])], 0⟩ [194, 163] rfl

/-- Claim C2, counterexample to the claim as stated.  The claim says the two
commit failures are surfaced as typed, recoverable protocol-sequencing
errors and never as faults caught by the boundary guard.  In the code both
failures are `panic!`s: commit of the absent handle 7 and commit of the
already-`Ready` handle 7 are intercepted by `ffi_panic_boundary` and
surfaced as the `PanicAtFfiBoundary` fault status (the commit entry point
has no typed error channel at all — its only output is the status byte). -/
theorem commit_failures_are_faults_counterexample :
    (lingua_send_json_to_rust none 7 ⟨[], 0⟩).1
      = return_codes.Rust.PanicAtFfiBoundary
    ∧ (lingua_send_json_to_rust none 7 ⟨[(7, JustReceivedJson.Ready [49])], 0⟩).1
      = return_codes.Rust.PanicAtFfiBoundary
    ∧ return_codes.Rust.PanicAtFfiBoundary ≠ return_codes.Rust.Success := by
  decide

/-- Claim C2 as amended: commit (`lingua_send_json_to_rust`) of an absent
handle panics ("no data") and commit of an already-`Ready` handle panics
("already sent"); both panics are caught by the boundary guard and surfaced
as the `PanicAtFfiBoundary` status — i.e. as faults, not as typed errors —
while commit of an `AllocatedOnly` handle succeeds and marks the slot
`Ready`. -/
theorem commit_sequencing_failures (h : Nat) (st : ApiState) :
    (tableGet st.just_received_json h = none →
      lingua_send_json_to_rust none h st
        = (return_codes.Rust.PanicAtFfiBoundary, st))
    ∧ (∀ s, tableGet st.just_received_json h = some (JustReceivedJson.Ready s) →
      (lingua_send_json_to_rust none h st).1
        = return_codes.Rust.PanicAtFfiBoundary)
    ∧ (∀ s, tableGet st.just_received_json h = some (JustReceivedJson.AllocatedOnly s) →
      lingua_send_json_to_rust none h st
        = (return_codes.Rust.Success,
           { st with just_received_json := tableInsert (tableRemove st.just_received_json h) h (JustReceivedJson.Ready s) })) := by
  refine ⟨?_, ?_, ?_⟩
  · intro habs
    simp [lingua_send_json_to_rust, lingua_send_json_to_rust_body,
      ffi_panic_boundary, hashMapRemove, habs]
  · intro s hready
    simp [lingua_send_json_to_rust, lingua_send_json_to_rust_body,
      ffi_panic_boundary, hashMapRemove, hready]
  · intro s halloc
    simp [lingua_send_json_to_rust, lingua_send_json_to_rust_body,
      ffi_panic_boundary, hashMapRemove, halloc]

/-- Witness for the amended C2 at concrete registry states (absent,
`Ready`, and `AllocatedOnly` slots for handle 7). -/
theorem commit_sequencing_failures_witness :
    lingua_send_json_to_rust none 7 ⟨[], 3⟩
      = (return_codes.Rust.PanicAtFfiBoundary, ⟨[], 3⟩)
    ∧ (lingua_send_json_to_rust none 7 ⟨[(7, JustReceivedJson.Ready [49])], 3⟩).1
      = return_codes.Rust.PanicAtFfiBoundary
    ∧ lingua_send_json_to_rust none 7 ⟨[(7, JustReceivedJson.AllocatedOnly [49])], 3⟩
      = (return_codes.Rust.Success, ⟨[(7, JustReceivedJson.Ready [49])], 3⟩) :=
  ⟨(commit_sequencing_failures 7 ⟨[], 3⟩).1 rfl,
   (commit_sequencing_failures 7 ⟨[(7, JustReceivedJson.Ready [49])], 3⟩).2.1 [49] rfl,
   (commit_sequencing_failures 7 ⟨[(7, JustReceivedJson.AllocatedOnly [49])], 3⟩).2.2 [49] rfl⟩

/-- Claim C3, counterexample to the claim as stated.  The claim requires
that a faulting guarded call leave the slot table exactly as it was; in
particular a commit of an already-`Ready` handle must leave the `Ready`
entry in place.  In the code `HashMap::remove` runs before the single-use
check, so the faulting commit of the `Ready` handle 0 removes its entry:
afterwards the table is empty and the lookup of 0 differs from before. -/
theorem fault_containment_counterexample :
    lingua_send_json_to_rust none 0 ⟨[(0, JustReceivedJson.Ready [120])], 5⟩
      = (return_codes.Rust.PanicAtFfiBoundary, ⟨[], 5⟩)
    ∧ tableGet ([] : List (Nat × JustReceivedJson)) 0
      ≠ tableGet [(0, JustReceivedJson.Ready [120])] 0 := by
  decide

/-- Claim C3 as amended: every internal fault in a guarded entry point is
surfaced as `PanicAtFfiBoundary` (or the null pointer for the allocation
entry point) and leaves the slot table as it was — except a faulting commit
of an already-`Ready` handle, which removes that handle's entry (the
`HashMap::remove` precedes the panic).  Faults injected at the start of a
guarded body preserve the state exactly. -/
theorem fault_containment (h n : Nat) (st : ApiState) :
    ((tableGet st.just_received_json h).isSome →
      lingua_send_json_to_rust_alloc none h n st = (none, st))
    ∧ (tableGet st.just_received_json h = none →
      lingua_send_json_to_rust none h st
        = (return_codes.Rust.PanicAtFfiBoundary, st))
    ∧ (∀ s, tableGet st.just_received_json h = some (JustReceivedJson.Ready s) →
      lingua_send_json_to_rust none h st
        = (return_codes.Rust.PanicAtFfiBoundary,
           { st with just_received_json := tableRemove st.just_received_json h }))
    ∧ (∀ m, lingua_send_json_to_rust (some m) h st
        = (return_codes.Rust.PanicAtFfiBoundary, st))
    ∧ (∀ m, lingua_send_json_to_rust_alloc (some m) h n st = (none, st)) := by
  refine ⟨?_, ?_, ?_, ?_, ?_⟩
  · intro hsome
    cases hg : tableGet st.just_received_json h with
    | none => rw [hg] at hsome; simp at hsome
    | some d =>
      have hbody : lingua_send_json_to_rust_alloc_body h n st
          = (if (sentinelFill n).length < n then
              Except.error ("sanity check failed: wrong capacity", st)
             else Except.error ("luau handle is already in use", st)) := by
        unfold lingua_send_json_to_rust_alloc_body
        simp [hg]
      unfold lingua_send_json_to_rust_alloc
      rw [hbody]
      by_cases hl : (sentinelFill n).length < n
      · rw [if_pos hl]
      · rw [if_neg hl]
  · intro habs
    simp [lingua_send_json_to_rust, lingua_send_json_to_rust_body,
      ffi_panic_boundary, hashMapRemove, habs]
  · intro s hready
    simp [lingua_send_json_to_rust, lingua_send_json_to_rust_body,
      ffi_panic_boundary, hashMapRemove, hready]
  · intro m
    simp [lingua_send_json_to_rust, ffi_panic_boundary]
  · intro m
    simp [lingua_send_json_to_rust_alloc]

/-- Witness for the amended C3 at concrete states: an injected fault in each
guarded entry point preserves the state, a commit fault on the absent
handle 1 preserves the state, and a commit fault on the `Ready` handle 2
removes exactly that entry. -/
theorem fault_containment_witness :
    lingua_send_json_to_rust (some "injected") 1 ⟨[(2, JustReceivedJson.Ready [120])], 0⟩
      = (return_codes.Rust.PanicAtFfiBoundary, ⟨[(2, JustReceivedJson.Ready [120])], 0⟩)
    ∧ lingua_send_json_to_rust_alloc (some "injected") 1 3 ⟨[(2, JustReceivedJson.Ready [120])], 0⟩
      = (none, ⟨[(2, JustReceivedJson.Ready [120])], 0⟩)
    ∧ lingua_send_json_to_rust none 1 ⟨[(2, JustReceivedJson.Ready [120])], 0⟩
      = (return_codes.Rust.PanicAtFfiBoundary, ⟨[(2, JustReceivedJson.Ready [120])], 0⟩)
    ∧ lingua_send_json_to_rust none 2 ⟨[(2, JustReceivedJson.Ready [120])], 0⟩
      = (return_codes.Rust.PanicAtFfiBoundary, ⟨[], 0⟩) :=
  ⟨(fault_containment 1 3 ⟨[(2, JustReceivedJson.Ready [120])], 0⟩).2.2.2.1 "injected",
   (fault_containment 1 3 ⟨[(2, JustReceivedJson.Ready [120])], 0⟩).2.2.2.2 "injected",
   (fault_containment 1 3 ⟨[(2, JustReceivedJson.Ready [120])], 0⟩).2.1 rfl,
   (fault_containment 2 3 ⟨[(2, JustReceivedJson.Ready [120])], 0⟩).2.2.1 [120] rfl⟩

/-- Claim C4, counterexample to the claim as stated.  The claim says a
successful allocation with requested length `n` reserves a buffer of exactly
`n` bytes, every byte equal to one single sentinel byte.  The sentinel the
code writes is the character `'£'`, whose UTF-8 encoding is two bytes, so an
allocation of requested length 1 reserves a two-byte buffer `[0xC2, 0xA3]`
whose two bytes differ from each other. -/
theorem sentinel_buffer_counterexample :
    lingua_send_json_to_rust_alloc none 0 1 ⟨[], 0⟩
      = (some [194, 163], ⟨[(0, JustReceivedJson.AllocatedOnly [194, 163])], 0⟩)
    ∧ ([194, 163] : Bytes).length ≠ 1
    ∧ ([194, 163] : Bytes).get? 0 ≠ ([194, 163] : Bytes).get? 1 := by
  decide

/-- Claim C4 as amended: a successful allocation for handle `h` with
requested length `n` reserves a buffer of `2 * n` bytes — `n` copies of the
two-byte UTF-8 sentinel `'£'` — records `h` as `AllocatedOnly`, and every
byte of the fresh, unwritten buffer equals the repeating sentinel pattern
(`0xC2` at even offsets, `0xA3` at odd offsets). -/
theorem sentinel_buffer_reserved (h n : Nat) (st : ApiState)
    (habs : tableGet st.just_received_json h = none) :
    lingua_send_json_to_rust_alloc none h n st
      = (some (sentinelFill n),
         { st with just_received_json := tableInsert st.just_received_json h (JustReceivedJson.AllocatedOnly (sentinelFill n)) })
    ∧ (sentinelFill n).length = 2 * n
    ∧ (∀ i, i < 2 * n →
        (sentinelFill n).get? i = some (if i % 2 = 0 then 0xC2 else 0xA3)) := by
  refine ⟨?_, sentinelFill_length n, fun i hi => sentinelFill_get n i hi⟩
  have hlen : ¬ (sentinelFill n).length < n := by
    rw [sentinelFill_length]; omega
  simp only [lingua_send_json_to_rust_alloc, lingua_send_json_to_rust_alloc_body]
  rw [if_neg hlen]
  simp [habs]

/-- Witness for the amended C4: allocating handle 0 with requested length 2
in a fresh state reserves the four-byte buffer `[0xC2, 0xA3, 0xC2, 0xA3]`. -/
theorem sentinel_buffer_reserved_witness :
    lingua_send_json_to_rust_alloc none 0 2 ⟨[], 0⟩
      = (some [194, 163, 194, 163],
         ⟨[(0, JustReceivedJson.AllocatedOnly [194, 163, 194, 163])], 0⟩)
    ∧ ([194, 163, 194, 163] : Bytes).length = 2 * 2 :=
  ⟨(sentinel_buffer_reserved 0 2 ⟨[], 0⟩ rfl).1,
   (sentinel_buffer_reserved 0 2 ⟨[], 0⟩ rfl).2.1⟩

/-- Claim C8: module-origin handle generation.  A send whose serialization
succeeds and whose host acknowledgement is `Success` (status byte 0) returns
the current counter value as the handle and increments the counter by one
modulo `2 ^ 32`.  Hence from a fresh context the first send returns handle
0, each subsequent send returns the previous assigned handle plus one, and
at `2 ^ 32 - 1` the counter wraps to 0 instead of faulting. -/
theorem send_handles_are_monotonic {S : Type}
    (to_string : S → Except String Bytes) (luau_import : Nat → Bytes → Nat)
    (data : S) (st : ApiState) (s : Bytes)
    (hser : to_string data = Except.ok s)
    (hack : luau_import st.next_rust_handle s = 0) :
    send_to_luau to_string luau_import data st
      = (Except.ok st.next_rust_handle,
         { st with next_rust_handle := (st.next_rust_handle + 1) % 2 ^ 32 }) := by
  simp [send_to_luau, hser, hack, return_codes.Luau.interpret]

/-- Witness for C8: three concrete sends — the first from a fresh context
returns handle 0, the next returns 1, and a send at counter `2 ^ 32 - 1`
returns `4294967295` and wraps the counter to 0. -/
theorem send_handles_are_monotonic_witness :
    send_to_luau (fun _ => Except.ok [49]) (fun _ _ => 0) (1 : Nat) ⟨[], 0⟩
      = (Except.ok 0, ⟨[], 1⟩)
    ∧ send_to_luau (fun _ => Except.ok [49]) (fun _ _ => 0) (1 : Nat) ⟨[], 1⟩
      = (Except.ok 1, ⟨[], 2⟩)
    ∧ send_to_luau (fun _ => Except.ok [49]) (fun _ _ => 0) (1 : Nat) ⟨[], 4294967295⟩
      = (Except.ok 4294967295, ⟨[], 0⟩) :=
  ⟨send_handles_are_monotonic (fun _ => Except.ok [49]) (fun _ _ => 0) 1 ⟨[], 0⟩ [49] rfl rfl,
   send_handles_are_monotonic (fun _ => Except.ok [49]) (fun _ _ => 0) 1 ⟨[], 1⟩ [49] rfl rfl,
   send_handles_are_monotonic (fun _ => Except.ok [49]) (fun _ _ => 0) 1 ⟨[], 4294967295⟩ [49] rfl rfl⟩

/-- Claim C1: the foreign-function surface of `src/ffi.rs` is **not** wrapped
by the fault guard.  `lingua_alloc_foreign_string` and
`lingua_dealloc_foreign_string` call into the registry with no
`ffi_panic_boundary` around them, so an internal panic raised inside either
entry point unwinds past the `extern "C"` boundary instead of being
converted to a null pointer / status code — contradicting the claim (and the
spec's contract) for these entry points, while the two guarded entry points
of `rust/src/lib.rs` do intercept the same injected panic. -/
theorem unguarded_ffi_entry_points_let_panics_escape :
    lingua_alloc_foreign_string (some "injected panic") 100 16 ⟨[]⟩
      = (FfiOutcome.unwinds "injected panic", ⟨[]⟩)
    ∧ lingua_dealloc_foreign_string (some "injected panic") 100 ⟨[]⟩
      = (FfiOutcome.unwinds "injected panic", ⟨[]⟩)
    ∧ (lingua_send_json_to_rust (some "injected panic") 0 ⟨[], 0⟩).1
      = return_codes.Rust.PanicAtFfiBoundary
    ∧ (lingua_send_json_to_rust_alloc (some "injected panic") 0 16 ⟨[], 0⟩).1
      = none :=
  ⟨rfl, rfl, rfl, rfl⟩

end Lingua
